import Mathlib

/-!
Shallow embedding of the contactqr service (github.com/10664kls/contactqr).

The embedding follows the Go sources:
  * `src/internal/card/type.go`   — the `status` enum and its serialization
  * `src/unnamed/part_003`        — an alternate revision of the same file
  * `src/internal/card/card.go`   — the `Card` entity, its guarded transitions
                                    and the card service operations
  * `src/internal/card/sql.go`    — `CardQuery.ToSql`, `listCards`, `getCard`
  * `src/internal/utils/withtx.go` (lines 135-283) — the employee service
                                    revision wired into the current app
  * `src/unnamed/part_000`        — `EmployeeQuery.ToSql`, `listEmployees`,
                                    `getEmployee`
  * `src/unnamed/part_001`        — the HTTP server and the auth package
                                    (`Auth.genToken`, `Claims`, `User`)
  * `src/internal/card/vcf.go`    — `genVCF`

Go `time.Time` values are modelled as natural numbers (seconds), database
tables as Lean lists of rows handed to the query functions in the order the
SQL `ORDER BY` clause of the corresponding query produces, and fallible Go
functions returning `error` as `Except RpcError`.  The `pager` package and
the current revision of the `auth` package are not part of the sources; the
few definitions needed from them are modelled from the spec and marked as
such in their doc comments.
-/

/-- The `status` enum of `src/internal/card/type.go` (both revisions declare
the same five constants `StatusUnspecified, StatusPending, StatusApproved,
StatusRejected, StatusPublished`). -/
inductive Status where
  | unspecified
  | pending
  | approved
  | rejected
  | published
deriving DecidableEq, Repr

/-- Go ordinal of a status constant (`status` is an `int` with `iota`
values 0..4). -/
def Status.toOrdinal : Status → Nat
  | .unspecified => 0
  | .pending => 1
  | .approved => 2
  | .rejected => 3
  | .published => 4

/-- The `statusNames` map of `src/internal/card/type.go` (lines 18-23): the
map has entries for the four active statuses only; `StatusUnspecified` is
absent. -/
def statusNames : Status → Option String
  | .pending => some "PENDING"
  | .approved => some "APPROVED"
  | .rejected => some "REJECTED"
  | .published => some "PUBLISHED"
  | .unspecified => none

/-- The `statusNames` map of the revision in `src/unnamed/part_003`
(lines 19-25), which additionally maps `StatusUnspecified` to
`"UNSPECIFIED"`. -/
def statusNamesP3 : Status → Option String
  | .pending => some "PENDING"
  | .approved => some "APPROVED"
  | .rejected => some "REJECTED"
  | .published => some "PUBLISHED"
  | .unspecified => some "UNSPECIFIED"

/-- `status.String` of `src/internal/card/type.go` (lines 75-80): look the
value up in `statusNames`, falling back to `fmt.Sprintf("Status(%d)", s)`. -/
def Status.string (s : Status) : String :=
  match statusNames s with
  | some t => t
  | none => "Status(" ++ toString s.toOrdinal ++ ")"

/-- `status.String` of the `src/unnamed/part_003` revision (lines 80-85). -/
def Status.stringP3 (s : Status) : String :=
  match statusNamesP3 s with
  | some t => t
  | none => "Status(" ++ toString s.toOrdinal ++ ")"

/-- `status.MarshalJSON` of `src/internal/card/type.go` (lines 33-35):
wraps `String()` in JSON quotes. -/
def Status.marshalJSON (s : Status) : String :=
  "\"" ++ s.string ++ "\""

/-- A single field violation of a `google.rpc.BadRequest` detail
(`edPb.BadRequest_FieldViolation`). -/
structure FieldViolation where
  field : String
  description : String
deriving DecidableEq, Repr

/-- gRPC-status-shaped errors returned by the service, carrying the code and
the user-facing message exactly as the Go sources build them via
`rpcStatus.Error` / `rpcStatus.New(...).WithDetails(...)`. -/
inductive RpcError where
  | failedPrecondition (msg : String)
  | permissionDenied (msg : String)
  | invalidArgument (msg : String) (violations : List FieldViolation)
  | notFound
deriving DecidableEq, Repr

/-- The `Card` struct of `src/internal/card/card.go` (lines 626-647),
extended with the `manager_id` column of the `dbo.v_business_card` view: the
column is filtered on by `CardQuery.ToSql` (sql.go line 63-65) even though
it is never scanned into the Go struct, so a row of the view needs it. -/
structure Card where
  employeeID : Int := 0
  departmentID : Int := 0
  positionID : Int := 0
  companyID : Int := 0
  managerID : Int := 0
  id : String := ""
  employeeCode : String := ""
  displayName : String := ""
  email : String := ""
  phoneNumber : String := ""
  mobileNumber : String := ""
  positionName : String := ""
  departmentName : String := ""
  companyName : String := ""
  remark : String := ""
  status : Status := .unspecified
  createdAt : Nat := 0
  updatedAt : Nat := 0
  createdBy : String := ""
  updatedBy : String := ""
deriving DecidableEq, Repr

/-- `Card.Approved` of `src/internal/card/card.go` (lines 649-667).  The Go
method mutates the receiver and returns an `error`; here it returns the new
card or the error.  `now` stands for `time.Now()`. -/
def Card.Approved (c : Card) (actor : String) (now : Nat) : Except RpcError Card :=
  match c.status with
  | .approved => .ok c
  | .rejected => .error (.failedPrecondition
      "Card is in REJECTED status. Only PENDING status can be APPROVED.")
  | .published => .error (.failedPrecondition
      "Card is in PUBLISHED status. Only PENDING status can be APPROVED.")
  | _ => .ok { c with status := .approved, updatedBy := actor, updatedAt := now }

/-- `Card.Rejected` of `src/internal/card/card.go` (lines 669-687). -/
def Card.Rejected (c : Card) (actor remark : String) (now : Nat) : Except RpcError Card :=
  match c.status with
  | .rejected => .ok c
  | .approved => .error (.failedPrecondition
      "Card is in APPROVED status. Only PENDING status can be REJECTED.")
  | .published => .error (.failedPrecondition
      "Card is in PUBLISHED status. Only PENDING status can be REJECTED.")
  | _ => .ok { c with
      status := .rejected
      remark := remark
      updatedBy := actor
      updatedAt := now }

/-- `Card.Published` of `src/internal/card/card.go` (lines 689-707). -/
def Card.Published (c : Card) (actor : String) (now : Nat) : Except RpcError Card :=
  match c.status with
  | .published => .ok c
  | .pending => .error (.failedPrecondition
      "Card is in PENDING status. Only APPROVED status can be PUBLISHED.")
  | .rejected => .error (.failedPrecondition
      "Card is in REJECTED status. Only APPROVED status can be PUBLISHED.")
  | _ => .ok { c with status := .published, updatedBy := actor, updatedAt := now }

/-- The `Employee` struct of the employee-service revision wired into the
current app (`src/internal/utils/withtx.go` lines 255-270). -/
structure Employee where
  id : Int := 0
  managerID : Int := 0
  departmentID : Int := 0
  positionID : Int := 0
  companyID : Int := 0
  code : String := ""
  displayName : String := ""
  departmentName : String := ""
  positionName : String := ""
  companyName : String := ""
  email : String := ""
  phone : String := ""
  mobile : String := ""
  createdAt : Nat := 0
deriving DecidableEq, Repr

/-- `Card.UpdateFromEmployee` of `src/internal/card/card.go`
(lines 709-735). -/
def Card.UpdateFromEmployee (c : Card) (e : Employee) (now : Nat) :
    Except RpcError Card :=
  match c.status with
  | .published => .error (.failedPrecondition
      "Card is in PUBLISHED status. Only PENDING and REJECTED status can be updated.")
  | .approved => .error (.failedPrecondition
      "Card is in APPROVED status. Only PENDING and REJECTED status can be updated.")
  | _ => .ok { c with
      employeeCode := e.code
      displayName := e.displayName
      phoneNumber := e.phone
      mobileNumber := e.mobile
      email := e.email
      positionID := e.positionID
      positionName := e.positionName
      departmentID := e.departmentID
      departmentName := e.departmentName
      companyID := e.companyID
      companyName := e.companyName
      status := .pending
      updatedBy := e.code
      updatedAt := now }

/-- Modelled from the spec: the `pager` package is not among the sources.
`pager.Cursor` is the decoded form of a page token: "an opaque token
encoding the last-seen primary sort key(s) of a page — entity id and/or
creation timestamp".  Callers build it as `pager.Cursor{ID: ..., Time: ...}`.
Queries here carry the already-decoded cursor (`Option Cursor`, `none` for
an empty page-token string); the encode/decode round trip itself is outside
the embedding. -/
structure Cursor where
  id : String
  time : Nat
deriving DecidableEq, Repr

/-- Modelled from the spec: `pager.Size` — "Page size defaults to a fixed
value when unspecified or invalid, and is always clamped to a reasonable
upper bound by the engine".  The default and the bound are opaque
constants; theorems never depend on their particular values. -/
def pagerSize (n : Nat) : Nat :=
  if n = 0 then 25 else min n 100

/-- Checks that `pat` is a prefix of `s` (character lists). -/
def charsPfx : List Char → List Char → Bool
  | [], _ => true
  | _ :: _, [] => false
  | p :: ps, c :: cs => p == c && charsPfx ps cs

/-- Checks that `pat` occurs contiguously inside `s` (character lists);
models the SQL predicate `display_name LIKE '%pat%'`. -/
def charsSub (pat : List Char) : List Char → Bool
  | [] => pat.isEmpty
  | c :: cs => charsPfx pat (c :: cs) || charsSub pat cs

/-- SQL `col LIKE '%pat%'` on strings. -/
def sqlLike (pat s : String) : Bool :=
  charsSub pat.toList s.toList

/-- The `CardQuery` struct of `src/internal/card/sql.go` (lines 17-30).
`CreatedAfter`/`CreatedBefore` are `none` when the Go `time.Time` is zero,
and `pageToken` holds the decoded cursor (`none` for the empty string). -/
structure CardQuery where
  managerID : Int := 0
  employeeID : Int := 0
  positionID : Int := 0
  departmentID : Int := 0
  companyID : Int := 0
  id : String := ""
  displayName : String := ""
  status : Status := .unspecified
  createdAfter : Option Nat := none
  createdBefore : Option Nat := none
  pageToken : Option Cursor := none
  pageSize : Nat := 0
deriving DecidableEq, Repr

/-- The WHERE predicate built by `CardQuery.ToSql` (sql.go lines 32-83),
one conjunct per conditional `append`, in source order.  The page-token
conjunct is `created_at < cursor.Time` (line 79). -/
def CardQuery.matches (q : CardQuery) (r : Card) : Bool :=
  (if q.id = "" then true else decide (r.id = q.id)) &&
  (if q.employeeID > 0 then decide (r.employeeID = q.employeeID) else true) &&
  (if q.displayName = "" then true else sqlLike q.displayName r.displayName) &&
  (if q.positionID > 0 then decide (r.positionID = q.positionID) else true) &&
  (if q.departmentID > 0 then decide (r.departmentID = q.departmentID) else true) &&
  (if q.companyID > 0 then decide (r.companyID = q.companyID) else true) &&
  (if q.status = .unspecified then true else decide (r.status = q.status)) &&
  (if q.managerID > 0 then decide (r.managerID = q.managerID) else true) &&
  (match q.createdBefore with | none => true | some t => decide (r.createdAt ≤ t)) &&
  (match q.createdAfter with | none => true | some t => decide (t ≤ r.createdAt)) &&
  (match q.pageToken with | none => true | some cur => decide (r.createdAt < cur.time))

/-- The sort key of `listCards`: `OrderBy("created_at DESC")`
(sql.go line 116). -/
def cardOrderKey (c : Card) : Nat :=
  c.createdAt

/-- `listCards` of `src/internal/card/sql.go` (lines 85-159): `SELECT TOP n
... WHERE pred ORDER BY created_at DESC`.  `db` is the content of the
`dbo.v_business_card` view in `created_at DESC` order (the query's ORDER
BY); `TOP n` is `take`. -/
def listCardsM (db : List Card) (q : CardQuery) : List Card :=
  (db.filter q.matches).take (pagerSize q.pageSize)

/-- `getCard` of `src/internal/card/sql.go` (lines 161-177): forces
`PageSize = 1`, refuses an empty id, and returns the first row or
`ErrCardNotFound`. -/
def getCardM (db : List Card) (q : CardQuery) : Except RpcError Card :=
  if q.id = "" then .error .notFound
  else
    match listCardsM db { q with pageSize := 1 } with
    | [] => .error .notFound
    | c :: _ => .ok c

/-- The `EmployeeQuery` struct of `src/unnamed/part_000` (lines 16-27), the
revision matching the employee service wired into the current app. -/
structure EmployeeQuery where
  id : Int := 0
  departmentID : Int := 0
  positionID : Int := 0
  companyID : Int := 0
  managerID : Int := 0
  code : String := ""
  createdBefore : Option Nat := none
  createdAfter : Option Nat := none
  pageToken : Option Cursor := none
  pageSize : Nat := 0
deriving DecidableEq, Repr

/-- Reads a decimal digit string (structural accumulator parse). -/
def decNatAux : List Char → Nat → Option Nat
  | [], acc => some acc
  | c :: cs, acc => if c.isDigit then decNatAux cs (acc * 10 + (c.toNat - 48)) else none

/-- The integer value the database compares the cursor's string id against
in `EID < ?` (part_000 line 68): the employee service stores
`strconv.FormatInt(last.ID, 10)` in `Cursor.ID`, and SQL Server implicitly
converts the string parameter back to the integer `EID` column.  The
conversion of a non-numeric string (a database error in reality) is
modelled as 0. -/
def empCursorKey (cur : Cursor) : Int :=
  match cur.id.data with
  | '-' :: cs => match decNatAux cs 0 with
    | some n => -(n : Int)
    | none => 0
  | cs => match decNatAux cs 0 with
    | some n => (n : Int)
    | none => 0

/-- The WHERE predicate built by `EmployeeQuery.ToSql`
(`src/unnamed/part_000` lines 29-72), one conjunct per conditional
`append`, in source order.  The page-token conjunct is `EID < cursor.ID`
(line 68). -/
def EmployeeQuery.matches (q : EmployeeQuery) (e : Employee) : Bool :=
  (if q.id > 0 then decide (e.id = q.id) else true) &&
  (if q.code = "" then true else decide (e.code = q.code)) &&
  (if q.departmentID > 0 then decide (e.departmentID = q.departmentID) else true) &&
  (if q.positionID > 0 then decide (e.positionID = q.positionID) else true) &&
  (if q.companyID > 0 then decide (e.companyID = q.companyID) else true) &&
  (if q.managerID > 0 then decide (e.managerID = q.managerID) else true) &&
  (match q.createdBefore with | none => true | some t => decide (e.createdAt ≤ t)) &&
  (match q.createdAfter with | none => true | some t => decide (t ≤ e.createdAt)) &&
  (match q.pageToken with | none => true | some cur => decide (e.id < empCursorKey cur))

/-- The sort key of `listEmployees`: `OrderBy("EID DESC")`
(`src/unnamed/part_000` line 101). -/
def empOrderKey (e : Employee) : Int :=
  e.id

/-- `listEmployees` of `src/unnamed/part_000` (lines 74-139): `SELECT TOP n
... WHERE pred ORDER BY EID DESC` over `dbo.vm_employee`.  `db` is the view
content in `EID DESC` order. -/
def listEmployeesM (db : List Employee) (q : EmployeeQuery) : List Employee :=
  (db.filter q.matches).take (pagerSize q.pageSize)

/-- `getEmployee` of `src/unnamed/part_000` (lines 141-157). -/
def getEmployeeM (db : List Employee) (q : EmployeeQuery) : Except RpcError Employee :=
  if q.id ≤ 0 then .error .notFound
  else
    match listEmployeesM db { q with pageSize := 1 } with
    | [] => .error .notFound
    | e :: _ => .ok e

/-- Modelled from the spec: the current revision of the `auth` package is
not among the sources (only an earlier revision, in `src/unnamed/part_001`,
is).  Per the spec, `Claims` is "an immutable value object embedded in a
token — id, employee code, display name, manager id, position id,
department id, company id, email, phone, mobile, and an is-HR role flag";
the callers in `src/internal/card/card.go` read `claims.ID` (an `int64`
compared with `Employee.ID`) and `claims.IsHR`. -/
structure Claims where
  id : Int := 0
  code : String := ""
  displayName : String := ""
  managerID : Int := 0
  positionID : Int := 0
  departmentID : Int := 0
  companyID : Int := 0
  email : String := ""
  phone : String := ""
  mobile : String := ""
  isHR : Bool := false
deriving DecidableEq, Repr

/-- The permission-denied message every card-scoped operation returns for
both "not found" and "not yours" (card.go lines 98, 178, 202, 257, 342,
414, 471, 483, 604, 612 — the identical literal everywhere). -/
def cardScopeDeniedMsg : String :=
  "You are not allowed to access this card or (it may not exist)"

/-- `Service.GetMyBusinessCardByID` of `src/internal/card/card.go`
(lines 188-210): owner-scoped lookup `{ID: id, EmployeeID: claims.ID}`,
collapsing `ErrCardNotFound` into `PermissionDenied`. -/
def GetMyBusinessCardByID (claims : Claims) (db : List Card) (id : String) :
    Except RpcError Card :=
  match getCardM db { id := id, employeeID := claims.id } with
  | .error .notFound => .error (.permissionDenied cardScopeDeniedMsg)
  | r => r

/-- `Service.GetMyApprovalBusinessCardByID` of `src/internal/card/card.go`
(lines 243-265): manager-scoped lookup `{ID: id, managerID: claims.ID}`. -/
def GetMyApprovalBusinessCardByID (claims : Claims) (db : List Card) (id : String) :
    Except RpcError Card :=
  match getCardM db { id := id, managerID := claims.id } with
  | .error .notFound => .error (.permissionDenied cardScopeDeniedMsg)
  | r => r

/-- `Service.GetBusinessCardByID` of `src/internal/card/card.go`
(lines 158-186): HR-only unscoped lookup. -/
def GetBusinessCardByID (claims : Claims) (db : List Card) (id : String) :
    Except RpcError Card :=
  if claims.isHR = false then .error (.permissionDenied cardScopeDeniedMsg)
  else
    match getCardM db { id := id } with
    | .error .notFound => .error (.permissionDenied cardScopeDeniedMsg)
    | r => r

/-- The result of a card list operation (`ListCardsResult`, card.go
lines 116-119); the next-page token is the decoded cursor the service
passes to `pager.EncodeCursor`. -/
structure ListCardsResult where
  cards : List Card
  nextPageToken : Option Cursor
deriving DecidableEq, Repr

/-- The next-page-token rule shared by the card list endpoints (card.go
lines 143-150): a token is emitted iff the page is non-empty and exactly
full, and it carries the last row's `ID` and `CreatedAt`. -/
def nextTokenCards (req : CardQuery) (cards : List Card) : Option Cursor :=
  if cards.length > 0 ∧ cards.length = pagerSize req.pageSize then
    match cards.getLast? with
    | some last => some ⟨last.id, last.createdAt⟩
    | none => none
  else none

/-- `Service.ListBusinessCards` of `src/internal/card/card.go`
(lines 121-156): HR-only listing. -/
def ListBusinessCards (claims : Claims) (db : List Card) (req : CardQuery) :
    Except RpcError ListCardsResult :=
  if claims.isHR = false then
    .error (.permissionDenied "You are not allowed to access theses business cards.")
  else
    .ok ⟨listCardsM db req, nextTokenCards req (listCardsM db req)⟩

/-- The result of an employee list operation (`ListEmployeesResult`). -/
structure ListEmployeesResult where
  employees : List Employee
  nextPageToken : Option Cursor
deriving DecidableEq, Repr

/-- `Service.ListEmployees` of the revision wired into the current app
(`src/internal/utils/withtx.go` lines 170-205): HR-only listing; the
next-page token carries `strconv.FormatInt(last.ID, 10)` and
`last.CreatedAt`. -/
def ListEmployees (claims : Claims) (db : List Employee) (req : EmployeeQuery) :
    Except RpcError ListEmployeesResult :=
  if claims.isHR = false then
    .error (.permissionDenied "You are not allowed to access theses employees.")
  else
    let emps := listEmployeesM db req
    .ok ⟨emps,
      if emps.length > 0 ∧ emps.length = pagerSize req.pageSize then
        match emps.getLast? with
        | some last => some ⟨toString last.id, last.createdAt⟩
        | none => none
      else none⟩

/-- `Service.GetEmployeeByID` of the revision wired into the current app
(`src/internal/utils/withtx.go` lines 207-233): HR-only lookup. -/
def GetEmployeeByID (claims : Claims) (db : List Employee) (id : Int) :
    Except RpcError Employee :=
  if claims.isHR = false then
    .error (.permissionDenied "You are not allowed to access this employee or (it may not exist)")
  else
    match getEmployeeM db { id := id } with
    | .error .notFound =>
        .error (.permissionDenied "You are not allowed to access this employee or (it may not exist)")
    | r => r

/-- `Service.GetMyEmployeeProfile` (`src/internal/utils/withtx.go`
lines 235-253): self-scoped lookup by `claims.ID`. -/
def GetMyEmployeeProfile (claims : Claims) (db : List Employee) :
    Except RpcError Employee :=
  match getEmployeeM db { id := claims.id } with
  | .error .notFound =>
      .error (.permissionDenied "You are not allowed to access this employee or (it may not exist)")
  | r => r

/-- Go `strings.TrimSpace`: drops leading and trailing whitespace.
Modelled structurally over the character list so that concrete instances
evaluate (Unicode white space reduced to ASCII white space). -/
def trimSpace (s : String) : String :=
  ⟨((s.data.dropWhile Char.isWhitespace).reverse.dropWhile Char.isWhitespace).reverse⟩

/-- `ApproveBusinessCardReq` (card.go lines 298-300). -/
structure ApproveBusinessCardReq where
  id : String := ""
deriving DecidableEq, Repr

/-- `ApproveBusinessCardReq.Validate` (card.go lines 302-322): trims the id
and rejects an empty one with a per-field violation. -/
def ApproveBusinessCardReq.validate (r : ApproveBusinessCardReq) :
    Except RpcError ApproveBusinessCardReq :=
  let id := trimSpace r.id
  if id = "" then
    .error (.invalidArgument
      "Your approval business card is not valid or incomplete. Please check the errors and try again, see details for more information."
      [⟨"cardId", "cardId must not be empty"⟩])
  else .ok ⟨id⟩

/-- `RejectBusinessCardReq` (card.go lines 361-364). -/
structure RejectBusinessCardReq where
  remark : String := ""
  id : String := ""
deriving DecidableEq, Repr

/-- `RejectBusinessCardReq.Validate` (card.go lines 366-394): trims the id
and the remark and rejects empty ones, accumulating per-field violations in
source order (cardId first, remark second). -/
def RejectBusinessCardReq.validate (r : RejectBusinessCardReq) :
    Except RpcError RejectBusinessCardReq :=
  let id := trimSpace r.id
  let rem := trimSpace r.remark
  let violations :=
    (if id = "" then [(⟨"cardId", "cardId must not be empty"⟩ : FieldViolation)] else []) ++
    (if rem = "" then [(⟨"remark", "remark must not be empty"⟩ : FieldViolation)] else [])
  if violations.length > 0 then
    .error (.invalidArgument
      "Your reject business card is not valid or incomplete. Please check the errors and try again, see details for more information."
      violations)
  else .ok ⟨rem, id⟩

/-- `Service.ApproveBusinessCard` of `src/internal/card/card.go`
(lines 324-359): validate, manager-scoped fetch (not-found collapses into
`PermissionDenied`), guarded transition, persist.  The persisted card is
the returned one. -/
def ApproveBusinessCard (claims : Claims) (db : List Card)
    (req : ApproveBusinessCardReq) (now : Nat) : Except RpcError Card :=
  match req.validate with
  | .error e => .error e
  | .ok v =>
    match getCardM db { id := v.id, managerID := claims.id } with
    | .error .notFound => .error (.permissionDenied cardScopeDeniedMsg)
    | .error e => .error e
    | .ok card => card.Approved claims.code now

/-- `Service.RejectBusinessCard` of `src/internal/card/card.go`
(lines 396-431): validate (before any read or transition), manager-scoped
fetch, guarded transition with the validated remark, persist. -/
def RejectBusinessCard (claims : Claims) (db : List Card)
    (req : RejectBusinessCardReq) (now : Nat) : Except RpcError Card :=
  match req.validate with
  | .error e => .error e
  | .ok v =>
    match getCardM db { id := v.id, managerID := claims.id } with
    | .error .notFound => .error (.permissionDenied cardScopeDeniedMsg)
    | .error e => .error e
    | .ok card => card.Rejected claims.code v.remark now

/-- `PhoneNumber` (card.go lines 508-514). -/
structure PhoneNumber where
  country : String := ""
  number : String := ""
deriving DecidableEq, Repr

/-- `CardReq` (card.go lines 502-506). -/
structure CardReq where
  id : String := ""
  phone : PhoneNumber := {}
  mobile : PhoneNumber := {}
deriving DecidableEq, Repr

/-- `CardReq.Validate` (card.go lines 516-584).  The external
libphonenumber calls (`e164.Parse`, `e164.IsValidNumber`, `e164.Format`)
are modelled by the opaque `parse` parameter, which returns the
internationally formatted number when the input parses to a valid number
for the country and `none` otherwise (the spec treats this as "an opaque
validating normalizer").  The id field is not touched by validation. -/
def CardReq.validate (parse : String → String → Option String) (r : CardReq) :
    Except RpcError CardReq :=
  let pn := trimSpace r.phone.number
  let pc := trimSpace r.phone.country
  let v1 := (if pn = "" then [(⟨"phone.number", "phone number must not be empty"⟩ : FieldViolation)] else []) ++
    (if pc = "" then [(⟨"phone.country", "phone country must not be empty."⟩ : FieldViolation)] else [])
  match parse pn pc with
  | none =>
    .error (.invalidArgument
      "Card is not valid or incomplete. Please check the errors and try again, see details for more information."
      (v1 ++ [⟨"phone.number", "phone number must be a valid number"⟩]))
  | some pf =>
    if r.mobile.number = "" then
      if v1.length > 0 then
        .error (.invalidArgument
          "Card is not valid or incomplete. Please check the errors and try again, see details for more information."
          v1)
      else .ok { r with phone := ⟨pc, pf⟩ }
    else
      let mc := trimSpace r.mobile.country
      let v2 := if mc = "" then [(⟨"mobile.country", "mobile country must not be empty"⟩ : FieldViolation)] else []
      match parse r.mobile.number mc with
      | none =>
        .error (.invalidArgument
          "Card is not valid or incomplete. Please check the errors and try again, see details for more information."
          (v1 ++ v2 ++ [⟨"mobile.number", "mobile number must be a valid number"⟩]))
      | some mf =>
        if (v1 ++ v2).length > 0 then
          .error (.invalidArgument
            "Card is not valid or incomplete. Please check the errors and try again, see details for more information."
            (v1 ++ v2))
        else .ok { r with phone := ⟨pc, pf⟩, mobile := ⟨mc, mf⟩ }

/-- `Service.UpdateBusinessCard` of `src/internal/card/card.go`
(lines 75-114): validate, fetch the caller's employee profile, owner-scoped
card fetch `{EmployeeID: employee.ID, ID: in.ID}` (not-found collapses into
`PermissionDenied`), apply the employee snapshot (with the validated phone
numbers set on it), persist. -/
def UpdateBusinessCard (parse : String → String → Option String)
    (claims : Claims) (empDb : List Employee) (db : List Card)
    (req : CardReq) (now : Nat) : Except RpcError Card :=
  match CardReq.validate parse req with
  | .error e => .error e
  | .ok v =>
    match GetMyEmployeeProfile claims empDb with
    | .error e => .error e
    | .ok emp =>
      let emp := { emp with phone := v.phone.number, mobile := v.mobile.number }
      match getCardM db { employeeID := emp.id, id := v.id } with
      | .error .notFound => .error (.permissionDenied cardScopeDeniedMsg)
      | .error e => .error e
      | .ok card => card.UpdateFromEmployee emp now

/-- The vCard field list built by `genVCF` (`src/internal/card/vcf.go`):
version, formatted name, the structured name derived by splitting the
display name on spaces (2 parts → "last;first;;;", 3 parts →
"third;second;;first;", otherwise the raw display name), work/cell phone
fields when non-empty, email, organization and title. -/
def genVCF (card : Card) : List (String × String) :=
  let parts := (trimSpace card.displayName).splitOn " "
  let name :=
    if parts.length = 2 then
      parts.getD 1 "" ++ ";" ++ parts.getD 0 "" ++ ";;;"
    else if parts.length = 3 then
      parts.getD 2 "" ++ ";" ++ parts.getD 1 "" ++ ";;" ++ parts.getD 0 "" ++ ";"
    else card.displayName
  [("VERSION", "3.0"), ("FN", card.displayName), ("N", name)] ++
  (if card.phoneNumber = "" then [] else [("TEL;TYPE=work", card.phoneNumber)]) ++
  (if card.mobileNumber = "" then [] else [("TEL;TYPE=cell", card.mobileNumber)]) ++
  [("EMAIL", card.email),
   ("ORG", card.companyName ++ ";" ++ card.departmentName ++ ";"),
   ("TITLE", card.positionName)]

/-- `VCF` (card.go lines 586-588). -/
structure VCF where
  content : String
deriving DecidableEq, Repr

/-- `Service.GetMyVCFBusinessCardByID` of `src/internal/card/card.go`
(lines 590-624).  The `claims` parameter mirrors the Claims attached to the
request context; the source's `auth.ClaimsFromContext(ctx)` call is
commented out, so the body never consults it.  `enc` models the external
vCard byte encoder composed with `base64.StdEncoding.EncodeToString`. -/
def GetMyVCFBusinessCardByID (enc : List (String × String) → String)
    (claims : Claims) (db : List Card) (id : String) : Except RpcError VCF :=
  match getCardM db { id := id } with
  | .error .notFound => .error (.permissionDenied cardScopeDeniedMsg)
  | .error e => .error e
  | .ok card =>
    if card.status = .published then .ok ⟨enc (genVCF card)⟩
    else .error (.permissionDenied cardScopeDeniedMsg)

/-- The `Claims` struct of the auth revision in `src/unnamed/part_001`
(lines 573-584) — all-string fields, the payload `genToken` embeds under
the token field name `profile`. -/
structure AuthClaims where
  id : String := ""
  code : String := ""
  displayName : String := ""
  managerID : String := ""
  positionID : String := ""
  departmentID : String := ""
  companyID : String := ""
  email : String := ""
  phone : String := ""
  mobile : String := ""
deriving DecidableEq, Repr

/-- The `User` struct of `src/unnamed/part_001` (lines 604-617). -/
structure AuthUser where
  id : String := ""
  code : String := ""
  displayName : String := ""
  managerID : String := ""
  positionID : String := ""
  departmentID : String := ""
  companyID : String := ""
  email : String := ""
  phone : String := ""
  mobile : String := ""
  password : String := ""
deriving DecidableEq, Repr

/-- The Claims literal `genToken` builds from a user
(`src/unnamed/part_001` lines 547-558). -/
def claimsOfUser (u : AuthUser) : AuthClaims :=
  { id := u.id, code := u.code, displayName := u.displayName,
    managerID := u.managerID, positionID := u.positionID,
    departmentID := u.departmentID, companyID := u.companyID,
    email := u.email, phone := u.phone, mobile := u.mobile }

/-- A PASETO token payload as `genToken` assembles it: subject, the three
time fields (seconds), the footer, and the Claims payload stored under the
fixed field name `profile` (`t.Set("profile", ...)`). -/
structure PasetoToken where
  subject : String
  issuedAt : Nat
  notBefore : Nat
  expiration : Nat
  footer : String
  profile : AuthClaims
deriving DecidableEq, Repr

/-- Models `paseto.V4Encrypt(key, nil)`: the opaque output string is
determined by the symmetric key and the token payload. -/
structure EncryptedToken (κ : Type) where
  key : κ
  payload : PasetoToken

/-- The `Token` pair (`src/unnamed/part_001` lines 532-535). -/
structure TokenPair (κ : Type) where
  access : EncryptedToken κ
  refresh : EncryptedToken κ

/-- The key material of the `Auth` struct (`src/unnamed/part_001`
lines 375-380): an access key `aKey` and a refresh key `rKey`, carried in
two distinct fields.  `κ` is the opaque symmetric-key type
(`paseto.V4SymmetricKey`). -/
structure AuthSvc (κ : Type) where
  aKey : κ
  rKey : κ

/-- `Auth.genToken` of `src/unnamed/part_001` (lines 537-571): one token
payload with subject, issued-at = not-before = now, expiration = now + 1h,
a footer, and the Claims under `profile`; the access token encrypts it with
`aKey`; then the expiration alone is changed to now + 7d and the refresh
token encrypts the result with `rKey`.  Times are in seconds. -/
def genToken {κ : Type} (s : AuthSvc κ) (now : Nat) (u : AuthUser) : TokenPair κ :=
  let t : PasetoToken :=
    { subject := u.code, issuedAt := now, notBefore := now,
      expiration := now + 3600, footer := toString now,
      profile := claimsOfUser u }
  let access : EncryptedToken κ := ⟨s.aKey, t⟩
  let refresh : EncryptedToken κ := ⟨s.rKey, { t with expiration := now + 3600 * 24 * 7 }⟩
  ⟨access, refresh⟩

/-- C1: `Card.Approved` is a no-op success on an APPROVED card (and hence
idempotent), fails with `FailedPrecondition` from REJECTED or PUBLISHED
without producing any changed card, and otherwise sets status=APPROVED,
updated-by=actor and updated-at=now, leaving the remaining fields
unchanged. -/
theorem approved_spec (c : Card) (actor : String) (now : Nat) :
    (c.status = .approved → c.Approved actor now = .ok c) ∧
    (c.status = .rejected → c.Approved actor now = .error (.failedPrecondition
        "Card is in REJECTED status. Only PENDING status can be APPROVED.")) ∧
    (c.status = .published → c.Approved actor now = .error (.failedPrecondition
        "Card is in PUBLISHED status. Only PENDING status can be APPROVED.")) ∧
    (c.status ≠ .approved → c.status ≠ .rejected → c.status ≠ .published →
      c.Approved actor now =
        .ok { c with status := .approved, updatedBy := actor, updatedAt := now }) ∧
    (∀ c' : Card, c.Approved actor now = .ok c' →
      ∀ actor' now', c'.Approved actor' now' = .ok c') := by
  refine ⟨?_, ?_, ?_, ?_, ?_⟩
  · intro h; simp [Card.Approved, h]
  · intro h; simp [Card.Approved, h]
  · intro h; simp [Card.Approved, h]
  · intro h1 h2 h3
    cases hs : c.status <;> simp_all [Card.Approved]
  · intro c' h actor' now'
    cases hs : c.status <;> simp_all [Card.Approved] <;> simp [← h, Card.Approved]

/-- C1 witness: the four guard branches and idempotence of `Card.Approved`
at concrete cards. -/
theorem approved_spec_witness :
    (Card.Approved { status := .approved } "m" 5 = .ok { status := .approved }) ∧
    (Card.Approved { status := .rejected } "m" 5 = .error (.failedPrecondition
        "Card is in REJECTED status. Only PENDING status can be APPROVED.")) ∧
    (Card.Approved { status := .pending } "m" 5 =
      .ok { status := .approved, updatedBy := "m", updatedAt := 5 }) := by
  refine ⟨(approved_spec { status := .approved } "m" 5).1 rfl,
          (approved_spec { status := .rejected } "m" 5).2.1 rfl, ?_⟩
  have h := (approved_spec { status := .pending } "m" 5).2.2.2.1
    (by decide) (by decide) (by decide)
  simpa using h

/-- C2 counterexample: a card whose status is the zero value UNSPECIFIED is
not APPROVED, yet `Card.Published` transitions it to PUBLISHED — so it is
not the case that only a card in APPROVED status can transition to
PUBLISHED. -/
theorem published_from_unspecified :
    Card.Published { status := .unspecified } "hr" 7 =
      .ok { status := .published, updatedBy := "hr", updatedAt := 7 } ∧
    ({ status := .unspecified : Card }).status ≠ .approved ∧
    ({ status := .published, updatedBy := "hr", updatedAt := 7 : Card }).status
      = .published := by
  refine ⟨rfl, by decide, rfl⟩

/-- C2 (amended): `Card.Published` is an idempotent no-op success on a
PUBLISHED card; it fails with `FailedPrecondition` from PENDING or
REJECTED; from any other status — APPROVED, or the zero value UNSPECIFIED —
it sets status=PUBLISHED, updated-by to the actor code and updated-at to
now. -/
theorem published_spec (c : Card) (actor : String) (now : Nat) :
    (c.status = .published → c.Published actor now = .ok c) ∧
    (c.status = .pending → c.Published actor now = .error (.failedPrecondition
        "Card is in PENDING status. Only APPROVED status can be PUBLISHED.")) ∧
    (c.status = .rejected → c.Published actor now = .error (.failedPrecondition
        "Card is in REJECTED status. Only APPROVED status can be PUBLISHED.")) ∧
    (c.status ≠ .published → c.status ≠ .pending → c.status ≠ .rejected →
      c.Published actor now =
        .ok { c with status := .published, updatedBy := actor, updatedAt := now }) := by
  refine ⟨?_, ?_, ?_, ?_⟩
  · intro h; simp [Card.Published, h]
  · intro h; simp [Card.Published, h]
  · intro h; simp [Card.Published, h]
  · intro h1 h2 h3
    cases hs : c.status <;> simp_all [Card.Published]

/-- C2 witness: the guard branches of `Card.Published` at concrete cards. -/
theorem published_spec_witness :
    (Card.Published { status := .published } "hr" 3 = .ok { status := .published }) ∧
    (Card.Published { status := .pending } "hr" 3 = .error (.failedPrecondition
        "Card is in PENDING status. Only APPROVED status can be PUBLISHED.")) ∧
    (Card.Published { status := .rejected } "hr" 3 = .error (.failedPrecondition
        "Card is in REJECTED status. Only APPROVED status can be PUBLISHED.")) ∧
    (Card.Published { status := .approved } "hr" 3 =
      .ok { status := .published, updatedBy := "hr", updatedAt := 3 }) := by
  refine ⟨(published_spec { status := .published } "hr" 3).1 rfl,
          (published_spec { status := .pending } "hr" 3).2.1 rfl,
          (published_spec { status := .rejected } "hr" 3).2.2.1 rfl, ?_⟩
  have h := (published_spec { status := .approved } "hr" 3).2.2.2
    (by decide) (by decide) (by decide)
  simpa using h

/-- C3: `Card.UpdateFromEmployee` fails with `FailedPrecondition` on an
APPROVED or PUBLISHED card, producing no changed card; on a PENDING or
REJECTED card it succeeds, overwrites the denormalized org and contact
fields from the employee snapshot, resets status to PENDING, and refreshes
updated-by (to the snapshot's employee code) and updated-at. -/
theorem update_from_employee_spec (c : Card) (e : Employee) (now : Nat) :
    (c.status = .approved → c.UpdateFromEmployee e now = .error (.failedPrecondition
        "Card is in APPROVED status. Only PENDING and REJECTED status can be updated.")) ∧
    (c.status = .published → c.UpdateFromEmployee e now = .error (.failedPrecondition
        "Card is in PUBLISHED status. Only PENDING and REJECTED status can be updated.")) ∧
    (c.status = .pending ∨ c.status = .rejected →
      c.UpdateFromEmployee e now = .ok { c with
        employeeCode := e.code
        displayName := e.displayName
        phoneNumber := e.phone
        mobileNumber := e.mobile
        email := e.email
        positionID := e.positionID
        positionName := e.positionName
        departmentID := e.departmentID
        departmentName := e.departmentName
        companyID := e.companyID
        companyName := e.companyName
        status := .pending
        updatedBy := e.code
        updatedAt := now }) := by
  refine ⟨?_, ?_, ?_⟩
  · intro h; simp [Card.UpdateFromEmployee, h]
  · intro h; simp [Card.UpdateFromEmployee, h]
  · rintro (h | h) <;> simp [Card.UpdateFromEmployee, h]

/-- C3 witness: both guard branches of `Card.UpdateFromEmployee` at
concrete inputs. -/
theorem update_from_employee_spec_witness :
    (Card.UpdateFromEmployee { status := .approved } { code := "E1" } 4 =
      .error (.failedPrecondition
        "Card is in APPROVED status. Only PENDING and REJECTED status can be updated.")) ∧
    (Card.UpdateFromEmployee { status := .rejected, remark := "r" } { code := "E1" } 4 =
      .ok { status := .pending, remark := "r", employeeCode := "E1",
            updatedBy := "E1", updatedAt := 4 }) := by
  refine ⟨(update_from_employee_spec { status := .approved } { code := "E1" } 4).1 rfl, ?_⟩
  have h := (update_from_employee_spec { status := .rejected, remark := "r" }
    { code := "E1" } 4).2.2 (Or.inr rfl)
  simpa using h

/-- C8 counterexample: in `src/internal/card/type.go` the `statusNames` map
has no entry for `StatusUnspecified`, so that enum value serializes through
the `fmt.Sprintf` fallback as `Status(0)` — not one of the five strings
PENDING, APPROVED, REJECTED, PUBLISHED, UNSPECIFIED. -/
theorem status_string_unspecified :
    Status.string .unspecified = "Status(0)" ∧
    Status.string .unspecified ∉
      ["PENDING", "APPROVED", "REJECTED", "PUBLISHED", "UNSPECIFIED"] ∧
    Status.marshalJSON .unspecified = "\"Status(0)\"" := by
  refine ⟨rfl, by decide, rfl⟩

/-- C8 (amended): under `src/internal/card/type.go`, every status other
than UNSPECIFIED serializes (String / MarshalJSON) as its own name among
PENDING, APPROVED, REJECTED, PUBLISHED, while `StatusUnspecified` falls
back to `Status(0)`; under the revision in `src/unnamed/part_003` every
value of the enum, UNSPECIFIED included, serializes as one of the five
names. -/
theorem status_serialization_spec :
    (∀ s : Status, s ≠ .unspecified →
      Status.string s ∈ ["PENDING", "APPROVED", "REJECTED", "PUBLISHED"] ∧
      Status.marshalJSON s = "\"" ++ Status.string s ++ "\"") ∧
    Status.string .unspecified = "Status(0)" ∧
    (∀ s : Status, Status.stringP3 s ∈
      ["PENDING", "APPROVED", "REJECTED", "PUBLISHED", "UNSPECIFIED"]) := by
  refine ⟨?_, rfl, ?_⟩
  · intro s hs
    cases s <;> simp_all <;> decide
  · intro s
    cases s <;> decide

/-- C8 witness: the serialization of a concrete non-UNSPECIFIED status,
obtained from the amended theorem. -/
theorem status_serialization_spec_witness :
    Status.string .pending ∈ ["PENDING", "APPROVED", "REJECTED", "PUBLISHED"] ∧
    Status.marshalJSON .pending = "\"" ++ Status.string .pending ++ "\"" :=
  status_serialization_spec.1 .pending (by decide)

/-- Taking one element of a filtered list is finding the first match. -/
theorem take_one_filter {α : Type} (p : α → Bool) (l : List α) :
    (l.filter p).take 1 = match l.find? p with
      | none => []
      | some a => [a] := by
  induction l with
  | nil => rfl
  | cons a t ih =>
    by_cases h : p a
    · simp [List.filter_cons, h]
    · simp [List.filter_cons, h, ih]

/-- The WHERE predicate ignores the page size. -/
theorem cardMatches_pageSize (q : CardQuery) (n : Nat) :
    CardQuery.matches { q with pageSize := n } = q.matches := rfl

/-- The WHERE predicate ignores the page size. -/
theorem empMatches_pageSize (q : EmployeeQuery) (n : Nat) :
    EmployeeQuery.matches { q with pageSize := n } = q.matches := rfl

/-- `getCard` with a non-empty id returns the first row of the ordered view
matching the query predicate, or not-found. -/
theorem getCardM_eq (db : List Card) (q : CardQuery) (h : q.id ≠ "") :
    getCardM db q = match db.find? q.matches with
      | none => .error .notFound
      | some c => .ok c := by
  unfold getCardM listCardsM
  rw [if_neg h, cardMatches_pageSize]
  have hp : pagerSize 1 = 1 := rfl
  rw [hp, take_one_filter]
  cases db.find? q.matches <;> rfl

/-- `getCard` is not-found whenever no row matches the predicate. -/
theorem getCardM_no_match (db : List Card) (q : CardQuery)
    (h : ∀ c ∈ db, q.matches c = false) : getCardM db q = .error .notFound := by
  by_cases hid : q.id = ""
  · unfold getCardM
    rw [if_pos hid]
  · rw [getCardM_eq db q hid]
    have hn : db.find? q.matches = none :=
      List.find?_eq_none.mpr (fun x hx => by simp [h x hx])
    rw [hn]

/-- `getEmployee` with a positive id returns the first matching row or
not-found. -/
theorem getEmployeeM_eq (db : List Employee) (q : EmployeeQuery) (h : 0 < q.id) :
    getEmployeeM db q = match db.find? q.matches with
      | none => .error .notFound
      | some e => .ok e := by
  unfold getEmployeeM listEmployeesM
  rw [if_neg (by omega), empMatches_pageSize]
  have hp : pagerSize 1 = 1 := rfl
  rw [hp, take_one_filter]
  cases db.find? q.matches <;> rfl

/-- An own-scoped card lookup (`{ID: id, EmployeeID: m}` with `m > 0`)
misses whenever no row has both that id and that employee reference. -/
theorem getCardM_own_no_match (db : List Card) (i : String) (m : Int) (hm : 0 < m)
    (h : ∀ c ∈ db, ¬(c.id = i ∧ c.employeeID = m)) :
    getCardM db { id := i, employeeID := m } = .error .notFound := by
  by_cases hid : i = ""
  · simp [getCardM, hid]
  · apply getCardM_no_match
    intro c hc
    by_cases h1 : c.id = i <;> by_cases h2 : c.employeeID = m
    · exact absurd ⟨h1, h2⟩ (h c hc)
    all_goals simp [CardQuery.matches, h1, h2, hm, hid]

/-- A manager-scoped card lookup (`{ID: id, managerID: m}` with `m > 0`)
misses whenever no row has both that id and that manager reference. -/
theorem getCardM_mgr_no_match (db : List Card) (i : String) (m : Int) (hm : 0 < m)
    (h : ∀ c ∈ db, ¬(c.id = i ∧ c.managerID = m)) :
    getCardM db { id := i, managerID := m } = .error .notFound := by
  by_cases hid : i = ""
  · simp [getCardM, hid]
  · apply getCardM_no_match
    intro c hc
    by_cases h1 : c.id = i <;> by_cases h2 : c.managerID = m
    · exact absurd ⟨h1, h2⟩ (h c hc)
    all_goals simp [CardQuery.matches, h1, h2, hm, hid]

/-- C7: an empty or whitespace-only remark makes `RejectBusinessCard` fail
with `InvalidArgument` carrying the per-field violation for `remark`, for
every database — the state-machine transition is never consulted; when the
transition from PENDING succeeds the remark is persisted on the card; and
`Card.Rejected` has the same guard shape as `Card.Approved`: idempotent
no-op on REJECTED, `FailedPrecondition` from APPROVED or PUBLISHED. -/
theorem reject_spec (claims : Claims) (db : List Card) (req : RejectBusinessCardReq)
    (c : Card) (actor remark : String) (now : Nat) :
    (trimSpace req.remark = "" →
      RejectBusinessCard claims db req now = .error (.invalidArgument
        "Your reject business card is not valid or incomplete. Please check the errors and try again, see details for more information."
        ((if trimSpace req.id = "" then [⟨"cardId", "cardId must not be empty"⟩] else []) ++
         [⟨"remark", "remark must not be empty"⟩]))) ∧
    (c.status = .pending → c.Rejected actor remark now = .ok { c with
        status := .rejected, remark := remark, updatedBy := actor, updatedAt := now }) ∧
    (c.status = .rejected → c.Rejected actor remark now = .ok c) ∧
    (c.status = .approved → c.Rejected actor remark now = .error (.failedPrecondition
        "Card is in APPROVED status. Only PENDING status can be REJECTED.")) ∧
    (c.status = .published → c.Rejected actor remark now = .error (.failedPrecondition
        "Card is in PUBLISHED status. Only PENDING status can be REJECTED.")) := by
  refine ⟨?_, ?_, ?_, ?_, ?_⟩
  · intro h
    by_cases hid : trimSpace req.id = "" <;>
      simp [RejectBusinessCard, RejectBusinessCardReq.validate, h, hid]
  · intro h; simp [Card.Rejected, h]
  · intro h; simp [Card.Rejected, h]
  · intro h; simp [Card.Rejected, h]
  · intro h; simp [Card.Rejected, h]

/-- C7 witness: a whitespace-only remark fails validation, the PENDING
transition persists the remark, and REJECTED re-entry is a no-op, all at
concrete inputs. -/
theorem reject_spec_witness :
    (RejectBusinessCard {} [] { remark := " ", id := "X" } 0 =
      .error (.invalidArgument
        "Your reject business card is not valid or incomplete. Please check the errors and try again, see details for more information."
        [⟨"remark", "remark must not be empty"⟩])) ∧
    (Card.Rejected { status := .pending } "m" "bad photo" 6 =
      .ok { status := .rejected, remark := "bad photo", updatedBy := "m", updatedAt := 6 }) ∧
    (Card.Rejected { status := .rejected, remark := "old" } "m" "new" 6 =
      .ok { status := .rejected, remark := "old" }) := by
  refine ⟨?_, ?_, ?_⟩
  · have h := (reject_spec {} [] { remark := " ", id := "X" }
      { status := .pending } "m" "r" 0).1 (by decide)
    rw [if_neg (by decide)] at h
    simpa using h
  · have h := (reject_spec {} [] {} { status := .pending } "m" "bad photo" 6).2.1 rfl
    simpa using h
  · exact (reject_spec {} [] {} { status := .rejected, remark := "old" } "m" "new" 6).2.2.1 rfl

/-- C9: `genToken` stamps issued-at = now and not-before = now on both
tokens, expiration now+1h on the access token and now+7d on the refresh
token, embeds the identical Claims payload under the `profile` field of
both, encrypts the access token with the access key and the refresh token
with the refresh key, and — the keys being distinct, as the spec requires of
the (absent) wiring — with two distinct symmetric keys. -/
theorem gen_token_spec {κ : Type} (s : AuthSvc κ) (now : Nat) (u : AuthUser)
    (hk : s.aKey ≠ s.rKey) :
    ((genToken s now u).access.payload.issuedAt = now) ∧
    ((genToken s now u).refresh.payload.issuedAt = now) ∧
    ((genToken s now u).access.payload.notBefore = now) ∧
    ((genToken s now u).refresh.payload.notBefore = now) ∧
    ((genToken s now u).access.payload.expiration = now + 3600) ∧
    ((genToken s now u).refresh.payload.expiration = now + 3600 * 24 * 7) ∧
    ((genToken s now u).access.payload.profile = claimsOfUser u) ∧
    ((genToken s now u).refresh.payload.profile =
      (genToken s now u).access.payload.profile) ∧
    ((genToken s now u).access.key = s.aKey) ∧
    ((genToken s now u).refresh.key = s.rKey) ∧
    ((genToken s now u).access.key ≠ (genToken s now u).refresh.key) := by
  refine ⟨rfl, rfl, rfl, rfl, rfl, rfl, rfl, rfl, rfl, rfl, hk⟩

/-- C9 witness: a concrete issuance with two distinct keys. -/
theorem gen_token_spec_witness :
    ((genToken (AuthSvc.mk true false) 11 {}).access.payload.expiration = 11 + 3600) ∧
    ((genToken (AuthSvc.mk true false) 11 {}).refresh.payload.expiration = 11 + 3600 * 24 * 7) ∧
    ((genToken (AuthSvc.mk true false) 11 {}).access.key ≠
      (genToken (AuthSvc.mk true false) 11 {}).refresh.key) := by
  have h := gen_token_spec (AuthSvc.mk true false) 11 {} (by decide)
  exact ⟨h.2.2.2.2.1, h.2.2.2.2.2.1, h.2.2.2.2.2.2.2.2.2.2⟩

/-- The pure-id card query predicate, for a non-empty id, is exactly the id
comparison. -/
theorem cardMatches_id_only (id : String) (hid : id ≠ "") :
    ({ id := id } : CardQuery).matches = fun r => decide (r.id = id) := by
  funext r
  simp [CardQuery.matches, hid]

/-- A self-profile lookup that succeeds returns the employee whose id is
the caller's claims id. -/
theorem profile_id (claims : Claims) (edb : List Employee) (emp : Employee)
    (hcid : 0 < claims.id) (h : GetMyEmployeeProfile claims edb = .ok emp) :
    emp.id = claims.id := by
  unfold GetMyEmployeeProfile at h
  rw [getEmployeeM_eq edb _ hcid] at h
  cases hf : edb.find? ({ id := claims.id } : EmployeeQuery).matches with
  | none => rw [hf] at h; simp at h
  | some e =>
    rw [hf] at h
    simp only [Except.ok.injEq] at h
    have hm := List.find?_some hf
    simp [EmployeeQuery.matches, hcid] at hm
    rw [← h]
    exact hm

/-- C10: `GetMyVCFBusinessCardByID` ignores the request's Claims entirely —
any two callers get the identical result — and (over a view with distinct
card ids and a non-empty requested id) it returns the encoded vCard exactly
when a card with that id exists in PUBLISHED status, and the standard
`PermissionDenied` error otherwise. -/
theorem vcf_spec (enc : List (String × String) → String) (db : List Card)
    (id : String) (c1 c2 : Claims)
    (hnd : (db.map Card.id).Nodup) (hid : id ≠ "") :
    (GetMyVCFBusinessCardByID enc c1 db id = GetMyVCFBusinessCardByID enc c2 db id) ∧
    ((∃ c ∈ db, c.id = id ∧ c.status = .published) ↔
      ∃ v, GetMyVCFBusinessCardByID enc c1 db id = .ok v) ∧
    ((¬ ∃ c ∈ db, c.id = id ∧ c.status = .published) →
      GetMyVCFBusinessCardByID enc c1 db id =
        .error (.permissionDenied cardScopeDeniedMsg)) := by
  have hop : ∀ cl : Claims, GetMyVCFBusinessCardByID enc cl db id =
      match db.find? (fun r => decide (r.id = id)) with
      | none => .error (.permissionDenied cardScopeDeniedMsg)
      | some c => if c.status = .published then .ok ⟨enc (genVCF c)⟩
                  else .error (.permissionDenied cardScopeDeniedMsg) := by
    intro cl
    unfold GetMyVCFBusinessCardByID
    rw [getCardM_eq db _ hid, cardMatches_id_only id hid]
    cases db.find? (fun r => decide (r.id = id)) <;> rfl
  refine ⟨by rw [hop c1, hop c2], ?_, ?_⟩
  · rw [hop c1]
    cases hf : db.find? (fun r => decide (r.id = id)) with
    | none =>
      have hnone := List.find?_eq_none.mp hf
      constructor
      · rintro ⟨c, hc, hcid, _⟩
        exact absurd (by simp [hcid]) (hnone c hc)
      · rintro ⟨v, hv⟩
        simp at hv
    | some c =>
      have hcm : c.id = id := by have := List.find?_some hf; simpa using this
      have hcmem : c ∈ db := List.mem_of_find?_eq_some hf
      by_cases hs : c.status = .published
      · simp only [hs, if_pos rfl]
        exact ⟨fun _ => ⟨_, rfl⟩, fun _ => ⟨c, hcmem, hcm, hs⟩⟩
      · simp only [if_neg hs]
        constructor
        · rintro ⟨c', hc', hcid', hpub'⟩
          have : c' = c := List.inj_on_of_nodup_map hnd hc' hcmem (by rw [hcid', hcm])
          exact absurd (this ▸ hpub') hs
        · rintro ⟨v, hv⟩
          simp at hv
  · intro hne
    rw [hop c1]
    cases hf : db.find? (fun r => decide (r.id = id)) with
    | none => rfl
    | some c =>
      have hcm : c.id = id := by have := List.find?_some hf; simpa using this
      have hcmem : c ∈ db := List.mem_of_find?_eq_some hf
      have hs : ¬ c.status = .published := fun hs => hne ⟨c, hcmem, hcm, hs⟩
      simp only [if_neg hs]

/-- C10 witness: a published card is served to a caller with empty Claims,
and an unpublished one is refused, at concrete inputs. -/
theorem vcf_spec_witness :
    (∃ v, GetMyVCFBusinessCardByID (fun _ => "enc") {}
      [{ id := "C", status := .published }] "C" = .ok v) ∧
    (GetMyVCFBusinessCardByID (fun _ => "enc") {}
      [{ id := "C", status := .pending }] "C" =
      .error (.permissionDenied cardScopeDeniedMsg)) := by
  constructor
  · exact (vcf_spec (fun _ => "enc") [{ id := "C", status := .published }] "C" {} {}
      (by decide) (by decide)).2.1.mp
      ⟨{ id := "C", status := .published }, by simp, rfl, rfl⟩
  · exact (vcf_spec (fun _ => "enc") [{ id := "C", status := .pending }] "C" {} {}
      (by decide) (by decide)).2.2
      (by rintro ⟨c, hc, hcid, hpub⟩; simp at hc; rw [hc] at hpub; simp at hpub)

/-- C5: each owner- or manager-scoped card operation returns the one
constant `PermissionDenied` error whenever no card matches both the
requested id and the caller's scope — whether the card does not exist at
all or exists with a different employee/manager reference, the observable
outcome is this same error value, so the two cases are indistinguishable.
(`0 < claims.id` reflects an authenticated caller; request validation is
assumed to pass, as each hypothesis states.) -/
theorem scoped_ops_permission_denied
    (parse : String → String → Option String) (claims : Claims)
    (db : List Card) (empDb : List Employee) (id : String)
    (areq : ApproveBusinessCardReq) (rreq : RejectBusinessCardReq)
    (ureq : CardReq) (now : Nat) (hcid : 0 < claims.id) :
    ((∀ c ∈ db, ¬(c.id = id ∧ c.employeeID = claims.id)) →
      GetMyBusinessCardByID claims db id =
        .error (.permissionDenied cardScopeDeniedMsg)) ∧
    ((∀ c ∈ db, ¬(c.id = id ∧ c.managerID = claims.id)) →
      GetMyApprovalBusinessCardByID claims db id =
        .error (.permissionDenied cardScopeDeniedMsg)) ∧
    (trimSpace areq.id ≠ "" →
      (∀ c ∈ db, ¬(c.id = trimSpace areq.id ∧ c.managerID = claims.id)) →
      ApproveBusinessCard claims db areq now =
        .error (.permissionDenied cardScopeDeniedMsg)) ∧
    (trimSpace rreq.id ≠ "" → trimSpace rreq.remark ≠ "" →
      (∀ c ∈ db, ¬(c.id = trimSpace rreq.id ∧ c.managerID = claims.id)) →
      RejectBusinessCard claims db rreq now =
        .error (.permissionDenied cardScopeDeniedMsg)) ∧
    (∀ v, CardReq.validate parse ureq = .ok v →
      ∀ emp, GetMyEmployeeProfile claims empDb = .ok emp →
      (∀ c ∈ db, ¬(c.id = v.id ∧ c.employeeID = claims.id)) →
      UpdateBusinessCard parse claims empDb db ureq now =
        .error (.permissionDenied cardScopeDeniedMsg)) := by
  refine ⟨?_, ?_, ?_, ?_, ?_⟩
  · intro h
    unfold GetMyBusinessCardByID
    rw [getCardM_own_no_match db id claims.id hcid h]
  · intro h
    unfold GetMyApprovalBusinessCardByID
    rw [getCardM_mgr_no_match db id claims.id hcid h]
  · intro hv h
    unfold ApproveBusinessCard
    have hval : areq.validate = .ok ⟨trimSpace areq.id⟩ := by
      unfold ApproveBusinessCardReq.validate
      rw [if_neg hv]
    rw [hval]
    simp only [getCardM_mgr_no_match db (trimSpace areq.id) claims.id hcid h]
  · intro hv hr h
    unfold RejectBusinessCard
    have hval : rreq.validate = .ok ⟨trimSpace rreq.remark, trimSpace rreq.id⟩ := by
      simp [RejectBusinessCardReq.validate, hv, hr]
    rw [hval]
    simp only [getCardM_mgr_no_match db (trimSpace rreq.id) claims.id hcid h]
  · intro v hv emp hemp h
    unfold UpdateBusinessCard
    rw [hv]
    simp only [hemp]
    have hee : ({ emp with phone := v.phone.number, mobile := v.mobile.number } : Employee).id = claims.id :=
      profile_id claims empDb emp hcid hemp
    rw [hee]
    simp only [getCardM_own_no_match db v.id claims.id hcid h]

/-- C5 witness: all five operations at a caller with id 5 over an empty
card table answer with the single `PermissionDenied` error. -/
theorem scoped_ops_permission_denied_witness :
    (GetMyBusinessCardByID { id := 5 } [] "X" =
      .error (.permissionDenied cardScopeDeniedMsg)) ∧
    (GetMyApprovalBusinessCardByID { id := 5 } [] "X" =
      .error (.permissionDenied cardScopeDeniedMsg)) ∧
    (ApproveBusinessCard { id := 5 } [] { id := "X" } 0 =
      .error (.permissionDenied cardScopeDeniedMsg)) ∧
    (RejectBusinessCard { id := 5 } [] { remark := "r", id := "X" } 0 =
      .error (.permissionDenied cardScopeDeniedMsg)) ∧
    (UpdateBusinessCard (fun n _ => some n) { id := 5 } [{ id := 5 }] []
      { id := "X", phone := ⟨"LA", "123"⟩ } 0 =
      .error (.permissionDenied cardScopeDeniedMsg)) := by
  have h := scoped_ops_permission_denied (fun n _ => some n) { id := 5 } []
    [{ id := 5 }] "X" { id := "X" } { remark := "r", id := "X" }
    { id := "X", phone := ⟨"LA", "123"⟩ } 0 (by decide)
  refine ⟨h.1 (by simp), h.2.1 (by simp), h.2.2.1 (by decide) (by simp),
    h.2.2.2.1 (by decide) (by decide) (by simp), ?_⟩
  exact h.2.2.2.2 { id := "X", phone := ⟨"LA", "123"⟩ } rfl { id := 5 } rfl (by simp)

/-- C6: for a caller whose Claims has IsHR = false, `ListBusinessCards`,
`GetBusinessCardByID`, `ListEmployees` and `GetEmployeeByID` all return
`PermissionDenied` without consulting the data (the result is independent
of the table contents); for a caller with IsHR = true each operation
proceeds to its query. -/
theorem hr_gate_spec (claims : Claims) (db db2 : List Card)
    (edb edb2 : List Employee) (cq : CardQuery) (eqy : EmployeeQuery)
    (cid : String) (eid : Int) :
    (claims.isHR = false →
      (ListBusinessCards claims db cq =
        .error (.permissionDenied "You are not allowed to access theses business cards.")) ∧
      (GetBusinessCardByID claims db cid =
        .error (.permissionDenied cardScopeDeniedMsg)) ∧
      (ListEmployees claims edb eqy =
        .error (.permissionDenied "You are not allowed to access theses employees.")) ∧
      (GetEmployeeByID claims edb eid =
        .error (.permissionDenied
          "You are not allowed to access this employee or (it may not exist)")) ∧
      (ListBusinessCards claims db cq = ListBusinessCards claims db2 cq) ∧
      (GetBusinessCardByID claims db cid = GetBusinessCardByID claims db2 cid) ∧
      (ListEmployees claims edb eqy = ListEmployees claims edb2 eqy) ∧
      (GetEmployeeByID claims edb eid = GetEmployeeByID claims edb2 eid)) ∧
    (claims.isHR = true →
      (ListBusinessCards claims db cq =
        .ok ⟨listCardsM db cq, nextTokenCards cq (listCardsM db cq)⟩) ∧
      (GetBusinessCardByID claims db cid =
        match getCardM db { id := cid } with
        | .error .notFound => .error (.permissionDenied cardScopeDeniedMsg)
        | r => r) ∧
      (ListEmployees claims edb eqy =
        .ok ⟨listEmployeesM edb eqy,
          if (listEmployeesM edb eqy).length > 0 ∧
             (listEmployeesM edb eqy).length = pagerSize eqy.pageSize then
            match (listEmployeesM edb eqy).getLast? with
            | some last => some ⟨toString last.id, last.createdAt⟩
            | none => none
          else none⟩) ∧
      (GetEmployeeByID claims edb eid =
        match getEmployeeM edb { id := eid } with
        | .error .notFound =>
            .error (.permissionDenied
              "You are not allowed to access this employee or (it may not exist)")
        | r => r)) := by
  constructor
  · intro h
    refine ⟨?_, ?_, ?_, ?_, ?_, ?_, ?_, ?_⟩ <;>
      simp [ListBusinessCards, GetBusinessCardByID, ListEmployees, GetEmployeeByID, h]
  · intro h
    refine ⟨?_, ?_, ?_, ?_⟩ <;>
      simp [ListBusinessCards, GetBusinessCardByID, ListEmployees, GetEmployeeByID, h]

/-- C6 witness: both gate branches at concrete callers over concrete
tables. -/
theorem hr_gate_spec_witness :
    (ListBusinessCards { isHR := false } [] {} =
      .error (.permissionDenied "You are not allowed to access theses business cards.")) ∧
    (GetEmployeeByID { isHR := false } [] 1 =
      .error (.permissionDenied
        "You are not allowed to access this employee or (it may not exist)")) ∧
    (ListBusinessCards { isHR := true } [] {} = .ok ⟨[], none⟩) := by
  have hf := (hr_gate_spec { isHR := false } [] [] [] [] {} {} "x" 1).1 rfl
  have ht := (hr_gate_spec { isHR := true } [] [] [] [] {} {} "x" 1).2 rfl
  refine ⟨hf.1, hf.2.2.2.1, ?_⟩
  have h := ht.1
  simpa using h

/-- Keyset-cursor property of a strictly descending list: filtering for
keys strictly below the key at index `i` yields exactly the suffix after
index `i` — no duplicated and no skipped elements. -/
theorem keyset_filter_drop {α β : Type} [LinearOrder β] (key : α → β) :
    ∀ (l : List α), l.Pairwise (fun a b => key b < key a) →
    ∀ (i : Nat) (h : i < l.length),
      l.filter (fun r => decide (key r < key (l.get ⟨i, h⟩))) = l.drop (i + 1) := by
  intro l
  induction l with
  | nil => intro _ i h; exact absurd h (Nat.not_lt_zero i)
  | cons a t ih =>
    intro hp i h
    rcases List.pairwise_cons.mp hp with ⟨ha, ht⟩
    cases i with
    | zero =>
      simp only [List.get]
      rw [List.filter_cons]
      have h1 : (decide (key a < key a)) = false := by simp
      rw [h1]
      simp only [Bool.false_eq_true, if_false, List.drop_succ_cons, List.drop_zero]
      exact List.filter_eq_self.mpr (fun b hb => by simp [ha b hb])
    | succ i =>
      simp only [List.get]
      rw [List.filter_cons]
      have hmem : t.get ⟨i, Nat.lt_of_succ_lt_succ h⟩ ∈ t := List.get_mem t i _
      have hlt : key (t.get ⟨i, Nat.lt_of_succ_lt_succ h⟩) < key a := ha _ hmem
      have h1 : (decide (key a < key (t.get ⟨i, Nat.lt_of_succ_lt_succ h⟩))) = false :=
        decide_eq_false (not_lt.mpr (le_of_lt hlt))
      rw [h1]
      simp only [Bool.false_eq_true, if_false, List.drop_succ_cons]
      exact ih ht i (Nat.lt_of_succ_lt_succ h)

/-- A card query carrying only a page token and page size matches exactly
the rows strictly older than the cursor's timestamp. -/
theorem cardMatches_page_only (cur : Cursor) (ps : Nat) (r : Card) :
    ({ pageSize := ps, pageToken := some cur } : CardQuery).matches r =
      decide (cardOrderKey r < cur.time) := by
  simp [CardQuery.matches, cardOrderKey]

/-- An employee query carrying only a page token and page size matches
exactly the rows with EID strictly below the cursor's decoded id. -/
theorem empMatches_page_only (cur : Cursor) (ps : Nat) (e : Employee) :
    ({ pageSize := ps, pageToken := some cur } : EmployeeQuery).matches e =
      decide (empOrderKey e < empCursorKey cur) := by
  simp [EmployeeQuery.matches, empOrderKey]

/-- C4 (amended): employee pages are keyed on the primary key (`ORDER BY
EID DESC`, cursor predicate `EID < decoded cursor id`), card pages on the
creation timestamp (`ORDER BY created_at DESC`, cursor predicate
`created_at < cursor time`).  Over a view whose sort key is strictly
descending (no ties), a page fetched with a cursor pointing at row `i` is
exactly the next slice of the full ordered result — consecutive pages
contain no duplicate row and skip no row.  (For cards the no-ties
hypothesis is essential: rows sharing the last-seen `created_at` are
skipped, see the counterexample.) -/
theorem keyset_pagination_spec :
    (∀ (db : List Card) (ps i : Nat) (h : i < db.length) (cur : Cursor),
      db.Pairwise (fun a b => cardOrderKey b < cardOrderKey a) →
      cur.time = cardOrderKey (db.get ⟨i, h⟩) →
      listCardsM db { pageSize := ps, pageToken := some cur } =
        (db.drop (i + 1)).take (pagerSize ps)) ∧
    (∀ (db : List Employee) (ps i : Nat) (h : i < db.length) (cur : Cursor),
      db.Pairwise (fun a b => empOrderKey b < empOrderKey a) →
      empCursorKey cur = empOrderKey (db.get ⟨i, h⟩) →
      listEmployeesM db { pageSize := ps, pageToken := some cur } =
        (db.drop (i + 1)).take (pagerSize ps)) := by
  constructor
  · intro db ps i h cur hp hc
    unfold listCardsM
    rw [List.filter_congr (fun r _ => cardMatches_page_only cur ps r)]
    rw [hc, keyset_filter_drop cardOrderKey db hp i h]
  · intro db ps i h cur hp hc
    unfold listEmployeesM
    rw [List.filter_congr (fun e _ => empMatches_page_only cur ps e)]
    rw [hc, keyset_filter_drop empOrderKey db hp i h]

/-- C4 witness: a concrete second page for cards (keyed on distinct
timestamps) and for employees (keyed on distinct EIDs, cursor id decoded
from its decimal string). -/
theorem keyset_pagination_spec_witness :
    (listCardsM
      [{ id := "X", createdAt := 9 }, { id := "Y", createdAt := 5 }]
      { pageSize := 1, pageToken := some ⟨"X", 9⟩ } =
      [{ id := "Y", createdAt := 5 }]) ∧
    (listEmployeesM
      [{ id := 9 }, { id := 7 }]
      { pageSize := 1, pageToken := some ⟨"9", 0⟩ } =
      [{ id := 7 }]) := by
  constructor
  · have h := keyset_pagination_spec.1
      [{ id := "X", createdAt := 9 }, { id := "Y", createdAt := 5 }]
      1 0 (by decide) ⟨"X", 9⟩ (by decide) (by decide)
    simpa using h
  · have h := keyset_pagination_spec.2
      [{ id := 9 }, { id := 7 }] 1 0 (by decide) ⟨"9", 0⟩ (by decide) (by decide)
    simpa using h

/-- C4 counterexample: the card listing is not keyed on the primary key
but on `created_at`, and rows sharing the last-seen timestamp are skipped.
With two rows both created at time 5 and page size 1, the first page holds
row "B" and the emitted cursor carries its timestamp; the second page is
empty even though row "A" — whose primary key "A" is strictly below the
cursor key "B", so the claimed predicate would have kept it — is part of
the full result, i.e. the row is skipped. -/
theorem card_pagination_skips_tied_rows :
    (listCardsM
      [{ id := "B", createdAt := 5, status := .pending },
       { id := "A", createdAt := 5, status := .pending }]
      { pageSize := 1 } = [{ id := "B", createdAt := 5, status := .pending }]) ∧
    (nextTokenCards { pageSize := 1 }
      [{ id := "B", createdAt := 5, status := .pending }] = some ⟨"B", 5⟩) ∧
    (listCardsM
      [{ id := "B", createdAt := 5, status := .pending },
       { id := "A", createdAt := 5, status := .pending }]
      { pageSize := 1, pageToken := some ⟨"B", 5⟩ } = []) ∧
    ({ id := "A", createdAt := 5, status := .pending : Card } ∈
      listCardsM
      [{ id := "B", createdAt := 5, status := .pending },
       { id := "A", createdAt := 5, status := .pending }]
      { pageSize := 2 }) ∧
    ("A".data < "B".data) := by
  refine ⟨by decide, by decide, by decide, by decide, by decide⟩
